import Mathlib

/-!
Verification of the frame reference-counting and handle-ownership core of
the cameraserver repository (files `src/Frame.h` and
`include/cameraserver_oo.inl`), as a shallow embedding in Lean 4.

`Frame` (src/Frame.h) is a reference-counted handle onto a heap-allocated
`Data` record (refcount, timestamp, image).  We embed the heap of `Data`
records as a function from addresses (`Nat`) to records, together with a
log of `ReleaseFrame` notifications; the C++ pointer members `m_source`
and `m_data` become `Option Nat` (with `none` for a null pointer).  The
C++ `std::atomic_int` refcount is embedded as a mathematical `Int`: the
atomic increments and decrements of a run are linearized into a sequence
of heap updates, which is exactly the serialization guaranteed by
`std::atomic` (wrap-around of the 32-bit counter is not modelled; the
counter equals the number of live handles).
-/

/-- The `Image` payload held by a frame's `Data` record.  Only the parts
used by `Frame.h` are embedded: a contiguous byte buffer with its length
(`Image::size()` and `Image::data()`). -/
structure Image where
  pix : List Nat
  deriving Repr, DecidableEq

def Image.size (im : Image) : Nat := im.pix.length

/-- `Frame::Data` from src/Frame.h: refcount, timestamp, image.  The
`std::chrono::system_clock::time_point` is embedded as an integer count
of ticks since the epoch, so that the epoch (`time_point{}`) is `0`. -/
structure FrameData where
  refcount : Int
  timestamp : Int
  image : Image

/-- The heap of `Frame::Data` records, addressed by `Nat`, plus the log of
`ReleaseFrame` notifications delivered to the owning backend (the address
of each released buffer, in order).  `ReleaseFrame` itself is implemented
in the backend (`SourceImpl`), outside src/Frame.h; here it is observed
only through this log. -/
structure FrameHeap where
  buf : Nat → FrameData
  releases : List Nat

def FrameHeap.updBuf (h : FrameHeap) (i : Nat) (v : FrameData) : FrameHeap :=
  { h with buf := fun j => if j = i then v else h.buf j }

/-- The `cs::Frame` handle: pointer members `m_source : SourceImpl*` and
`m_data : Data*`, embedded as `Option Nat` addresses (`none` = null). -/
structure Frame where
  m_source : Option Nat
  m_data : Option Nat
  deriving Repr, DecidableEq

/-- `Frame::Frame()` : both pointers null. -/
def Frame.nullFrame : Frame := ⟨none, none⟩

/-- The `if (m_data) ++(m_data->refcount);` step shared by the two
attaching constructors of `Frame`. -/
def FrameHeap.incRef (h : FrameHeap) : Option Nat → FrameHeap
  | none => h
  | some d => h.updBuf d { h.buf d with refcount := (h.buf d).refcount + 1 }

/-- `Frame::Frame(SourceImpl& source, Data* data)` : store the two
pointers, then increment the refcount if `data` is non-null. -/
def Frame.attachCtor (source : Nat) (data : Option Nat) (h : FrameHeap) :
    Frame × FrameHeap :=
  (⟨some source, data⟩, h.incRef data)

/-- `Frame::Frame(const Frame& frame)` : copy the two pointer members,
then increment the refcount if `m_data` is non-null. -/
def Frame.copyCtor (f : Frame) (h : FrameHeap) : Frame × FrameHeap :=
  (⟨f.m_source, f.m_data⟩, h.incRef f.m_data)

/-- `swap(Frame&, Frame&)` : exchange the two objects' pointer members.
The result pair is (new value of `first`, new value of `second`). -/
def Frame.swapFrames (first second : Frame) : Frame × Frame :=
  (second, first)

/-- `Frame::Frame(Frame&& other) : Frame() { swap(*this, other); }`.
The result pair is (the constructed frame, the moved-from `other`).  The
heap is threaded through unchanged because the move path performs no
refcount operation and no backend call. -/
def Frame.moveCtor (other : Frame) (h : FrameHeap) :
    (Frame × Frame) × FrameHeap :=
  (Frame.swapFrames Frame.nullFrame other, h)

/-- `Frame::DecRef()` : if `m_data` is non-null, decrement its refcount;
if the decremented value is zero, invoke `ReleaseFrame()` (observed as an
append to the release log). -/
def Frame.decRef (f : Frame) (h : FrameHeap) : FrameHeap :=
  match f.m_data with
  | none => h
  | some d =>
    let c := (h.buf d).refcount - 1
    let h1 := h.updBuf d { h.buf d with refcount := c }
    if c = 0 then { h1 with releases := h1.releases ++ [d] } else h1

/-- `Frame::~Frame()` : `DecRef()`. -/
def Frame.dtor (f : Frame) (h : FrameHeap) : FrameHeap := Frame.decRef f h

/-- `Frame& Frame::operator=(Frame other)` applied to a move,
`a = std::move(b)`: the by-value parameter `other` is move-constructed
from `b` (leaving `b` null), `swap(*this, other)` runs, and the parameter
is destroyed at exit, releasing the reference previously held by `a`.
The result is ((new value of `a`, new value of `b`), new heap). -/
def Frame.moveAssign (a b : Frame) (h : FrameHeap) :
    (Frame × Frame) × FrameHeap :=
  let s1 := Frame.moveCtor b h
  let other := s1.1.1
  let bNew := s1.1.2
  let s2 := Frame.swapFrames a other
  let aNew := s2.1
  let otherNew := s2.2
  ((aNew, bNew), Frame.dtor otherNew s1.2)

/-- `Frame::operator bool()` : `return m_data;`. -/
def Frame.toBool (f : Frame) : Bool := f.m_data.isSome

/-- `Frame::size()` : `0` when `m_data` is null, else the image's size. -/
def Frame.size (f : Frame) (h : FrameHeap) : Nat :=
  match f.m_data with
  | none => 0
  | some d => ((h.buf d).image).size

/-- `Frame::data()` : `nullptr` when `m_data` is null, else a pointer to
the image bytes (embedded as the bytes themselves under `some`). -/
def Frame.data (f : Frame) (h : FrameHeap) : Option (List Nat) :=
  match f.m_data with
  | none => none
  | some d => some ((h.buf d).image).pix

/-- `Frame::time()` : the epoch `time_point{}` (tick `0`) when `m_data`
is null, else the stored timestamp. -/
def Frame.time (f : Frame) (h : FrameHeap) : Int :=
  match f.m_data with
  | none => 0
  | some d => (h.buf d).timestamp

/-- Publication of a completed frame by the backend (`SourceImpl`,
outside src/): the backend holds a fresh `Data` record with refcount `0`
at address `d` and hands it to `Frame::Frame(SourceImpl&, Data*)`, which
attaches and brings the refcount to `1` for the caller-retained
reference. -/
def Frame.publish (source : Nat) (d : Nat) (h : FrameHeap) :
    Frame × FrameHeap :=
  Frame.attachCtor source (some d) h

/-- `n` successive copy constructions from frame `f` (each copy is the
same handle value, so only the heap evolves). -/
def Frame.copies (f : Frame) : Nat → FrameHeap → FrameHeap
  | 0, h => h
  | n + 1, h => Frame.copies f n (Frame.copyCtor f h).2

/-- `n` successive destructions of copies of frame `f`. -/
def Frame.destroys (f : Frame) : Nat → FrameHeap → FrameHeap
  | 0, h => h
  | n + 1, h => Frame.destroys f n (Frame.dtor f h)

/-! ### A trace model for concurrent copy/destroy interleavings

`std::atomic_int` serializes the increments and decrements performed by
concurrently running copies and destroys: every execution is observed as
some linearization of the individual atomic operations.  The model below
quantifies over all such linearizations of copy/destroy operations on one
shared buffer, starting from the single published reference. -/

/-- One linearized atomic operation on a shared frame buffer: a copy
construction (atomic increment) or a destruction (atomic
decrement-and-maybe-release, `Frame::DecRef`). -/
inductive FrameOp
  | copyOp
  | destroyOp
  deriving Repr, DecidableEq

/-- Net effect of one operation on the number of live handles. -/
def FrameOp.delta : FrameOp → Int
  | copyOp => 1
  | destroyOp => -1

/-- The shared buffer's state under the trace model: its refcount and how
many times `ReleaseFrame` has been invoked for it. -/
structure RCState where
  refcount : Int
  releases : Nat
  deriving Repr, DecidableEq

/-- One linearized step: `++refcount` for a copy; for a destroy, the body
of `Frame::DecRef`: `if (--(refcount) == 0) ReleaseFrame();`. -/
def rcStep (s : RCState) : FrameOp → RCState
  | .copyOp => { s with refcount := s.refcount + 1 }
  | .destroyOp =>
    let c := s.refcount - 1
    if c = 0 then { refcount := c, releases := s.releases + 1 }
    else { s with refcount := c }

/-- Run a linearized trace of operations. -/
def rcRun (s : RCState) : List FrameOp → RCState
  | [] => s
  | op :: rest => rcRun (rcStep s op) rest

/-- Number of live handles after a trace, starting from `rc` live
handles. -/
def liveAfter (rc : Int) : List FrameOp → Int
  | [] => rc
  | op :: rest => liveAfter (rc + op.delta) rest

/-- A trace is well formed when every operation is performed on an
existing live handle: copies duplicate a live handle and destroys destroy
one, so at each step at least one handle must be live. -/
def wfTrace (rc : Int) : List FrameOp → Bool
  | [] => true
  | op :: rest => decide (0 < rc) && wfTrace (rc + op.delta) rest

/-- Concrete heap used by witnesses: every buffer starts with refcount 0,
timestamp 0 and an empty image; no releases have happened. -/
def testHeap : FrameHeap := ⟨fun _ => ⟨0, 0, ⟨[]⟩⟩, []⟩

/-- Concrete heap used by the C3 counterexample: every buffer holds one
live reference. -/
def cxHeap : FrameHeap := ⟨fun _ => ⟨1, 0, ⟨[]⟩⟩, []⟩

/-- Concrete trace used by the C9 witness: copy, copy, then three
destroys. -/
def ctrace : List FrameOp :=
  [FrameOp.copyOp, FrameOp.copyOp, FrameOp.destroyOp, FrameOp.destroyOp,
   FrameOp.destroyOp]

/-! ### The object-oriented handle wrappers (include/cameraserver_oo.inl)

Each wrapper holds an opaque integer handle (`0` = no resource) and a
status code, and delegates every operation to the backend C API.  The
backend functions are embedded as an oracle structure `CSBackend`: each C
function `F(args, CS_Status* status)` becomes a field taking the args and
the value currently stored behind the status pointer, and returning the
result together with the value the backend leaves behind the pointer.
Handles, `cv::Mat*` pointers, `USBCameraInfo` records and `std::function`
callbacks are opaque to this code and are embedded as `Nat` tokens. -/

/-- A C++ `double` value, embedded as its 64-bit pattern: the wrappers
only pass doubles through to and from the backend and never perform
floating-point arithmetic on them. -/
structure CDouble where
  bits : Nat
  deriving Repr, DecidableEq, Inhabited

/-- Modelled from the spec: `VideoProperty::Type` is declared in the
class header, which is not part of src/.  Property kinds: none, boolean,
numeric (double), string, enumerated; `kNone` is the kind of a null
property. -/
inductive PropertyKind
  | kNone
  | kBoolean
  | kDouble
  | kString
  | kEnum
  deriving Repr, DecidableEq, Inhabited

/-- Modelled from the spec: the `static_cast<Type>(static_cast<int>(...))`
conversion from the backend's `CS_PropertyType` code to
`VideoProperty::Type`; code `0` is `kNone`, and codes outside the declared
kinds also map to `kNone`. -/
def PropertyKind.ofInt : Int → PropertyKind
  | 1 => .kBoolean
  | 2 => .kDouble
  | 4 => .kString
  | 8 => .kEnum
  | _ => .kNone

/-- Oracle for the backend C API consumed by cameraserver_oo.inl.  Every
field models one C function: it receives the call arguments and the value
currently stored behind the `CS_Status*` pointer, and returns the result
paired with the status value left behind the pointer (functions returning
`void` return only the status). -/
structure CSBackend where
  getPropertyName : Nat → Int → String × Int
  getBooleanProperty : Nat → Int → Bool × Int
  setBooleanProperty : Nat → Bool → Int → Int
  getDoubleProperty : Nat → Int → CDouble × Int
  setDoubleProperty : Nat → CDouble → Int → Int
  getPropertyMin : Nat → Int → CDouble × Int
  getPropertyMax : Nat → Int → CDouble × Int
  getPropertyStep : Nat → Int → CDouble × Int
  getPropertyDefault : Nat → Int → CDouble × Int
  getStringProperty : Nat → Int → String × Int
  getStringPropertyBuf : Nat → Int → String × Int
  setStringProperty : Nat → String → Int → Int
  getEnumProperty : Nat → Int → Int × Int
  setEnumProperty : Nat → Int → Int → Int
  getEnumPropertyChoices : Nat → Int → List String × Int
  getPropertyType : Nat → Int → Int × Int
  getSourceName : Nat → Int → String × Int
  getSourceDescription : Nat → Int → String × Int
  getSourceLastFrameTime : Nat → Int → Nat × Int
  isSourceConnected : Nat → Int → Bool × Int
  getSourceProperty : Nat → String → Int → Nat × Int
  copySource : Nat → Int → Nat × Int
  releaseSource : Nat → Int → Int
  putSourceFrame : Nat → Nat → Int → Int
  notifySourceError : Nat → String → Int → Int
  setSourceConnected : Nat → Bool → Int → Int
  createSourceProperty : Nat → String → Int → Int → Nat × Int
  createSourcePropertyCallback : Nat → String → Int → Nat → Int → Nat × Int
  removeSourcePropertyHandle : Nat → Nat → Int → Int
  removeSourcePropertyName : Nat → String → Int → Int
  getSinkName : Nat → Int → String × Int
  getSinkDescription : Nat → Int → String × Int
  setSinkSource : Nat → Nat → Int → Int
  getSinkSource : Nat → Int → Nat × Int
  getSinkSourceProperty : Nat → String → Int → Nat × Int
  copySink : Nat → Int → Nat × Int
  releaseSink : Nat → Int → Int
  grabSinkFrame : Nat → Nat → Int → Nat × Int
  getSinkError : Nat → Int → String × Int
  setSinkEnabled : Nat → Bool → Int → Int
  createUSBSourceDev : String → Int → Int → Nat × Int
  createUSBSourcePath : String → String → Int → Nat × Int
  createHTTPSource : String → String → Int → Nat × Int
  createCvSource : String → Int → Nat × Int
  createHTTPSink : String → String → Int → Int → Nat × Int
  createCvSink : String → Int → Nat × Int
  createCvSinkCallback : String → Nat → Int → Nat × Int
  enumerateUSBCameras : Int → List Nat × Int
  addSourceListener : Nat → Int → Int → Nat × Int
  removeSourceListener : Nat → Int → Int
  addSinkListener : Nat → Int → Int → Nat × Int
  removeSinkListener : Nat → Int → Int
  deriving Inhabited

/-- `cs::VideoProperty`: handle, mutable status, and cached type.  Field
layout modelled from the spec (the class header is not part of src/): an
opaque identifier and a last observed status code, plus the type cached
by the handle constructor. -/
structure VideoProperty where
  m_handle : Nat
  m_status : Int
  m_type : PropertyKind
  deriving Repr, DecidableEq

/-- `cs::VideoSource` (also the state of its subclasses `USBCamera`,
`HTTPCamera`, `CvSource`).  Field layout modelled from the spec: opaque
identifier and last observed status code. -/
structure VideoSource where
  m_handle : Nat
  m_status : Int
  deriving Repr, DecidableEq

/-- `cs::VideoSink` (also the state of its subclasses `HTTPSink`,
`CvSink`).  Field layout modelled from the spec: opaque identifier and
last observed status code. -/
structure VideoSink where
  m_handle : Nat
  m_status : Int
  deriving Repr, DecidableEq

/-- `cs::SourceListener`: the .inl uses only `m_handle` (its constructor
and destructor keep the status in a function-local `CS_Status`), so the
listener state is the handle alone. -/
structure SourceListener where
  m_handle : Nat
  deriving Repr, DecidableEq

/-- `cs::SinkListener`: as for `SourceListener`, the handle alone. -/
structure SinkListener where
  m_handle : Nat
  deriving Repr, DecidableEq

/-- Modelled from the spec: the default constructors declared in the
class header produce the "holds nothing" state: identifier 0. -/
def VideoSource.nullSource : VideoSource := ⟨0, 0⟩

/-- Modelled from the spec: `VideoSource(CS_Source handle)` adopts the
given identifier (used by `VideoSink::GetSource`). -/
def VideoSource.ctorOfHandle (handle : Nat) : VideoSource := ⟨handle, 0⟩

/-- Modelled from the spec: `swap(VideoSource&, VideoSource&)` exchanges
the two wrappers' members.  The result pair is (new value of `first`,
new value of `second`). -/
def VideoSource.swapSources (first second : VideoSource) :
    VideoSource × VideoSource :=
  (second, first)

/-! ### VideoProperty methods (cameraserver_oo.inl lines 13-96) -/

/-- `VideoProperty::GetName` : `m_status = 0; return GetPropertyName(m_handle, &m_status);` -/
def VideoProperty.GetName (b : CSBackend) (p : VideoProperty) :
    String × VideoProperty :=
  let r := b.getPropertyName p.m_handle 0
  (r.1, { p with m_status := r.2 })

/-- `VideoProperty::GetBoolean` -/
def VideoProperty.GetBoolean (b : CSBackend) (p : VideoProperty) :
    Bool × VideoProperty :=
  let r := b.getBooleanProperty p.m_handle 0
  (r.1, { p with m_status := r.2 })

/-- `VideoProperty::SetBoolean` -/
def VideoProperty.SetBoolean (b : CSBackend) (p : VideoProperty)
    (value : Bool) : VideoProperty :=
  { p with m_status := b.setBooleanProperty p.m_handle value 0 }

/-- `VideoProperty::GetDouble` -/
def VideoProperty.GetDouble (b : CSBackend) (p : VideoProperty) :
    CDouble × VideoProperty :=
  let r := b.getDoubleProperty p.m_handle 0
  (r.1, { p with m_status := r.2 })

/-- `VideoProperty::SetDouble` -/
def VideoProperty.SetDouble (b : CSBackend) (p : VideoProperty)
    (value : CDouble) : VideoProperty :=
  { p with m_status := b.setDoubleProperty p.m_handle value 0 }

/-- `VideoProperty::GetMin` -/
def VideoProperty.GetMin (b : CSBackend) (p : VideoProperty) :
    CDouble × VideoProperty :=
  let r := b.getPropertyMin p.m_handle 0
  (r.1, { p with m_status := r.2 })

/-- `VideoProperty::GetMax` -/
def VideoProperty.GetMax (b : CSBackend) (p : VideoProperty) :
    CDouble × VideoProperty :=
  let r := b.getPropertyMax p.m_handle 0
  (r.1, { p with m_status := r.2 })

/-- `VideoProperty::GetStep` -/
def VideoProperty.GetStep (b : CSBackend) (p : VideoProperty) :
    CDouble × VideoProperty :=
  let r := b.getPropertyStep p.m_handle 0
  (r.1, { p with m_status := r.2 })

/-- `VideoProperty::GetDefault` -/
def VideoProperty.GetDefault (b : CSBackend) (p : VideoProperty) :
    CDouble × VideoProperty :=
  let r := b.getPropertyDefault p.m_handle 0
  (r.1, { p with m_status := r.2 })

/-- `VideoProperty::GetString()` (the `std::string` overload) -/
def VideoProperty.GetString (b : CSBackend) (p : VideoProperty) :
    String × VideoProperty :=
  let r := b.getStringProperty p.m_handle 0
  (r.1, { p with m_status := r.2 })

/-- `VideoProperty::GetString(llvm::SmallVectorImpl<char>&)` (the
buffer-filling overload) -/
def VideoProperty.GetStringBuf (b : CSBackend) (p : VideoProperty) :
    String × VideoProperty :=
  let r := b.getStringPropertyBuf p.m_handle 0
  (r.1, { p with m_status := r.2 })

/-- `VideoProperty::SetString` -/
def VideoProperty.SetString (b : CSBackend) (p : VideoProperty)
    (value : String) : VideoProperty :=
  { p with m_status := b.setStringProperty p.m_handle value 0 }

/-- `VideoProperty::GetEnum` -/
def VideoProperty.GetEnum (b : CSBackend) (p : VideoProperty) :
    Int × VideoProperty :=
  let r := b.getEnumProperty p.m_handle 0
  (r.1, { p with m_status := r.2 })

/-- `VideoProperty::SetEnum` -/
def VideoProperty.SetEnum (b : CSBackend) (p : VideoProperty)
    (value : Int) : VideoProperty :=
  { p with m_status := b.setEnumProperty p.m_handle value 0 }

/-- `VideoProperty::GetChoices` -/
def VideoProperty.GetChoices (b : CSBackend) (p : VideoProperty) :
    List String × VideoProperty :=
  let r := b.getEnumPropertyChoices p.m_handle 0
  (r.1, { p with m_status := r.2 })

/-- `VideoProperty::VideoProperty(CS_Property handle)` : `m_status = 0;`
then `m_type = kNone` for handle 0, else
`m_type = static_cast<Type>(GetPropertyType(handle, &m_status))`.  The
second component counts the backend calls made (0 or 1). -/
def VideoProperty.ctorOfHandle (b : CSBackend) (handle : Nat) :
    VideoProperty × Nat :=
  if handle = 0 then (⟨handle, 0, PropertyKind.kNone⟩, 0)
  else
    let r := b.getPropertyType handle 0
    (⟨handle, r.2, PropertyKind.ofInt r.1⟩, 1)

/-! ### VideoSource methods (cameraserver_oo.inl lines 98-152) -/

/-- `VideoSource::VideoSource(const VideoSource&)` :
`m_handle(source.m_handle == 0 ? 0 : CopySource(source.m_handle, &m_status))`.
The second component counts the backend calls made (0 or 1). -/
def VideoSource.copyCtor (b : CSBackend) (source : VideoSource) :
    VideoSource × Nat :=
  if source.m_handle = 0 then (⟨0, 0⟩, 0)
  else
    let r := b.copySource source.m_handle 0
    (⟨r.1, r.2⟩, 1)

/-- `VideoSource::VideoSource(VideoSource&& other) : VideoSource() {
swap(*this, other); }`.  The result is ((constructed wrapper, moved-from
`other`), number of backend calls made). -/
def VideoSource.moveCtor (other : VideoSource) :
    (VideoSource × VideoSource) × Nat :=
  (VideoSource.swapSources VideoSource.nullSource other, 0)

/-- `VideoSource::~VideoSource()` : `m_status = 0; if (m_handle != 0)
ReleaseSource(m_handle, &m_status);`.  Returns (the status recorded in
`m_status` during destruction, number of release calls made).  The
destructor is a total function: no exception path exists. -/
def VideoSource.dtor (b : CSBackend) (s : VideoSource) : Int × Nat :=
  if s.m_handle = 0 then (0, 0) else (b.releaseSource s.m_handle 0, 1)

/-- `VideoSource& VideoSource::operator=(VideoSource other)` applied to a
move, `a = std::move(src)`: the by-value parameter is move-constructed
from `src` (leaving it null), `swap(*this, other)` runs, and the
parameter's destructor releases the reference previously held by `a`.
The result is ((new value of `a`, new value of `src`), (status recorded
by the release, number of release calls made)). -/
def VideoSource.moveAssign (b : CSBackend) (a src : VideoSource) :
    (VideoSource × VideoSource) × (Int × Nat) :=
  let m := VideoSource.moveCtor src
  let sw := VideoSource.swapSources a m.1.1
  ((sw.1, m.1.2), VideoSource.dtor b sw.2)

/-- `VideoSource::GetName` -/
def VideoSource.GetName (b : CSBackend) (s : VideoSource) :
    String × VideoSource :=
  let r := b.getSourceName s.m_handle 0
  (r.1, { s with m_status := r.2 })

/-- `VideoSource::GetDescription` -/
def VideoSource.GetDescription (b : CSBackend) (s : VideoSource) :
    String × VideoSource :=
  let r := b.getSourceDescription s.m_handle 0
  (r.1, { s with m_status := r.2 })

/-- `VideoSource::GetLastFrameTime` -/
def VideoSource.GetLastFrameTime (b : CSBackend) (s : VideoSource) :
    Nat × VideoSource :=
  let r := b.getSourceLastFrameTime s.m_handle 0
  (r.1, { s with m_status := r.2 })

/-- `VideoSource::IsConnected` -/
def VideoSource.IsConnected (b : CSBackend) (s : VideoSource) :
    Bool × VideoSource :=
  let r := b.isSourceConnected s.m_handle 0
  (r.1, { s with m_status := r.2 })

/-- `VideoSource::GetProperty` : looks up the property handle, then
constructs a `VideoProperty` from it (which may itself query the type). -/
def VideoSource.GetProperty (b : CSBackend) (s : VideoSource)
    (name : String) : VideoProperty × VideoSource :=
  let r := b.getSourceProperty s.m_handle name 0
  ((VideoProperty.ctorOfHandle b r.1).1, { s with m_status := r.2 })

/-- `USBCamera::USBCamera(llvm::StringRef name, int dev)` :
`m_handle = CreateUSBSourceDev(name, dev, &m_status);` -/
def USBCamera.ctorDev (b : CSBackend) (name : String) (dev : Int) :
    VideoSource :=
  let r := b.createUSBSourceDev name dev 0
  ⟨r.1, r.2⟩

/-- `USBCamera::USBCamera(llvm::StringRef name, llvm::StringRef path)` -/
def USBCamera.ctorPath (b : CSBackend) (name path : String) : VideoSource :=
  let r := b.createUSBSourcePath name path 0
  ⟨r.1, r.2⟩

/-- `USBCamera::EnumerateUSBCameras` (static) : `CS_Status status = 0;
return ::cs::EnumerateUSBCameras(&status);` — the status is a
function-local that is discarded; no wrapper instance is read or
written. -/
def USBCamera.EnumerateUSBCameras (b : CSBackend) : List Nat :=
  (b.enumerateUSBCameras 0).1

/-- `HTTPCamera::HTTPCamera` -/
def HTTPCamera.ctor (b : CSBackend) (name url : String) : VideoSource :=
  let r := b.createHTTPSource name url 0
  ⟨r.1, r.2⟩

/-- `CvSource::CvSource` -/
def CvSource.ctor (b : CSBackend) (name : String) : VideoSource :=
  let r := b.createCvSource name 0
  ⟨r.1, r.2⟩

/-- `CvSource::PutFrame` (the `cv::Mat*` argument is an opaque token) -/
def CvSource.PutFrame (b : CSBackend) (s : VideoSource) (image : Nat) :
    VideoSource :=
  { s with m_status := b.putSourceFrame s.m_handle image 0 }

/-- `CvSource::NotifyError` -/
def CvSource.NotifyError (b : CSBackend) (s : VideoSource) (msg : String) :
    VideoSource :=
  { s with m_status := b.notifySourceError s.m_handle msg 0 }

/-- `CvSource::SetConnected` -/
def CvSource.SetConnected (b : CSBackend) (s : VideoSource)
    (connected : Bool) : VideoSource :=
  { s with m_status := b.setSourceConnected s.m_handle connected 0 }

/-- `CvSource::CreateProperty(name, type)` (the `Type` argument is passed
to the backend as its integer code) -/
def CvSource.CreateProperty (b : CSBackend) (s : VideoSource)
    (name : String) (ty : Int) : VideoProperty × VideoSource :=
  let r := b.createSourceProperty s.m_handle name ty 0
  ((VideoProperty.ctorOfHandle b r.1).1, { s with m_status := r.2 })

/-- `CvSource::CreateProperty(name, type, onChange)` (the callback is an
opaque token) -/
def CvSource.CreatePropertyCallback (b : CSBackend) (s : VideoSource)
    (name : String) (ty : Int) (onChange : Nat) :
    VideoProperty × VideoSource :=
  let r := b.createSourcePropertyCallback s.m_handle name ty onChange 0
  ((VideoProperty.ctorOfHandle b r.1).1, { s with m_status := r.2 })

/-- `CvSource::RemoveProperty(VideoProperty)` -/
def CvSource.RemovePropertyHandle (b : CSBackend) (s : VideoSource)
    (property : VideoProperty) : VideoSource :=
  { s with m_status := b.removeSourcePropertyHandle s.m_handle property.m_handle 0 }

/-- `CvSource::RemoveProperty(llvm::StringRef)` -/
def CvSource.RemovePropertyName (b : CSBackend) (s : VideoSource)
    (name : String) : VideoSource :=
  { s with m_status := b.removeSourcePropertyName s.m_handle name 0 }

/-! ### VideoSink methods (cameraserver_oo.inl lines 205-277) -/

/-- Modelled from the spec: the default `VideoSink()` constructor
declared in the class header: identifier 0. -/
def VideoSink.nullSink : VideoSink := ⟨0, 0⟩

/-- Modelled from the spec: `swap(VideoSink&, VideoSink&)` exchanges the
two wrappers' members. -/
def VideoSink.swapSinks (first second : VideoSink) : VideoSink × VideoSink :=
  (second, first)

/-- `VideoSink::VideoSink(const VideoSink&)` :
`m_handle(sink.m_handle == 0 ? 0 : CopySink(sink.m_handle, &m_status))`. -/
def VideoSink.copyCtor (b : CSBackend) (sink : VideoSink) :
    VideoSink × Nat :=
  if sink.m_handle = 0 then (⟨0, 0⟩, 0)
  else
    let r := b.copySink sink.m_handle 0
    (⟨r.1, r.2⟩, 1)

/-- `VideoSink::VideoSink(VideoSink&&)` -/
def VideoSink.moveCtor (other : VideoSink) : (VideoSink × VideoSink) × Nat :=
  (VideoSink.swapSinks VideoSink.nullSink other, 0)

/-- `VideoSink::~VideoSink()` : `m_status = 0; if (m_handle != 0)
ReleaseSink(m_handle, &m_status);` -/
def VideoSink.dtor (b : CSBackend) (k : VideoSink) : Int × Nat :=
  if k.m_handle = 0 then (0, 0) else (b.releaseSink k.m_handle 0, 1)

/-- `VideoSink::GetName` -/
def VideoSink.GetName (b : CSBackend) (k : VideoSink) : String × VideoSink :=
  let r := b.getSinkName k.m_handle 0
  (r.1, { k with m_status := r.2 })

/-- `VideoSink::GetDescription` -/
def VideoSink.GetDescription (b : CSBackend) (k : VideoSink) :
    String × VideoSink :=
  let r := b.getSinkDescription k.m_handle 0
  (r.1, { k with m_status := r.2 })

/-- `VideoSink::SetSource` : `if (!source) SetSinkSource(m_handle, 0,
&m_status); else SetSinkSource(m_handle, source.m_handle, &m_status);` -/
def VideoSink.SetSource (b : CSBackend) (k : VideoSink)
    (source : VideoSource) : VideoSink :=
  if source.m_handle = 0 then
    { k with m_status := b.setSinkSource k.m_handle 0 0 }
  else
    { k with m_status := b.setSinkSource k.m_handle source.m_handle 0 }

/-- `VideoSink::GetSource` : `return VideoSource{GetSinkSource(m_handle,
&m_status)};` -/
def VideoSink.GetSource (b : CSBackend) (k : VideoSink) :
    VideoSource × VideoSink :=
  let r := b.getSinkSource k.m_handle 0
  (VideoSource.ctorOfHandle r.1, { k with m_status := r.2 })

/-- `VideoSink::GetSourceProperty` -/
def VideoSink.GetSourceProperty (b : CSBackend) (k : VideoSink)
    (name : String) : VideoProperty × VideoSink :=
  let r := b.getSinkSourceProperty k.m_handle name 0
  ((VideoProperty.ctorOfHandle b r.1).1, { k with m_status := r.2 })

/-- `HTTPSink::HTTPSink` -/
def HTTPSink.ctor (b : CSBackend) (name listenAddress : String)
    (port : Int) : VideoSink :=
  let r := b.createHTTPSink name listenAddress port 0
  ⟨r.1, r.2⟩

/-- `CvSink::CvSink(llvm::StringRef name)` -/
def CvSink.ctor (b : CSBackend) (name : String) : VideoSink :=
  let r := b.createCvSink name 0
  ⟨r.1, r.2⟩

/-- `CvSink::CvSink(name, processFrame)` (the callback is an opaque
token) -/
def CvSink.ctorCallback (b : CSBackend) (name : String)
    (processFrame : Nat) : VideoSink :=
  let r := b.createCvSinkCallback name processFrame 0
  ⟨r.1, r.2⟩

/-- `CvSink::GrabFrame` -/
def CvSink.GrabFrame (b : CSBackend) (k : VideoSink) (image : Nat) :
    Nat × VideoSink :=
  let r := b.grabSinkFrame k.m_handle image 0
  (r.1, { k with m_status := r.2 })

/-- `CvSink::GetError` -/
def CvSink.GetError (b : CSBackend) (k : VideoSink) : String × VideoSink :=
  let r := b.getSinkError k.m_handle 0
  (r.1, { k with m_status := r.2 })

/-- `CvSink::SetEnabled` -/
def CvSink.SetEnabled (b : CSBackend) (k : VideoSink) (enabled : Bool) :
    VideoSink :=
  { k with m_status := b.setSinkEnabled k.m_handle enabled 0 }

/-! ### Listener methods (cameraserver_oo.inl lines 279-321) -/

/-- `SourceListener::SourceListener(callback, eventMask)` :
`CS_Status status = 0; m_handle = AddSourceListener(..., eventMask,
&status);` — the status is a function-local that goes out of scope; only
the handle is stored.  The callback is an opaque token. -/
def SourceListener.ctor (b : CSBackend) (callback : Nat) (eventMask : Int) :
    SourceListener :=
  ⟨(b.addSourceListener callback eventMask 0).1⟩

/-- `SourceListener::~SourceListener()` : `CS_Status status = 0;
if (m_handle != 0) RemoveSourceListener(m_handle, &status);` — returns
(the function-local status after destruction, number of remove calls). -/
def SourceListener.dtor (b : CSBackend) (l : SourceListener) : Int × Nat :=
  if l.m_handle = 0 then (0, 0) else (b.removeSourceListener l.m_handle 0, 1)

/-- `SinkListener::SinkListener(callback, eventMask)` : as for
`SourceListener`, the backend status goes into a discarded local. -/
def SinkListener.ctor (b : CSBackend) (callback : Nat) (eventMask : Int) :
    SinkListener :=
  ⟨(b.addSinkListener callback eventMask 0).1⟩

/-- `SinkListener::~SinkListener()` -/
def SinkListener.dtor (b : CSBackend) (l : SinkListener) : Int × Nat :=
  if l.m_handle = 0 then (0, 0) else (b.removeSinkListener l.m_handle 0, 1)

/-! ### Concrete backends for witnesses and counterexamples -/

/-- A trivial backend: every oracle answer is the default value. -/
def testBackend : CSBackend := default

/-- A backend whose construction entry points fail: they return handle 0
with a nonzero status code. -/
def failBackend : CSBackend :=
  { (default : CSBackend) with
    createUSBSourceDev := fun _ _ _ => (0, 9)
    createCvSink := fun _ _ => (0, 11)
    getSourceProperty := fun _ _ _ => (0, 13)
    addSourceListener := fun _ _ _ => (0, 5)
    addSinkListener := fun _ _ _ => (0, 6) }

/-- Like `failBackend` but with different failure status codes from the
listener registration calls: used to show those codes are not
recoverable from the constructed listener. -/
def failBackendB : CSBackend :=
  { (default : CSBackend) with
    createUSBSourceDev := fun _ _ _ => (0, 9)
    createCvSink := fun _ _ => (0, 11)
    getSourceProperty := fun _ _ _ => (0, 13)
    addSourceListener := fun _ _ _ => (0, 7)
    addSinkListener := fun _ _ _ => (0, 8) }

/-! ### Basic heap lemmas -/

lemma FrameHeap.updBuf_releases (h : FrameHeap) (i : Nat) (v : FrameData) :
    (h.updBuf i v).releases = h.releases := rfl

lemma FrameHeap.updBuf_buf_self (h : FrameHeap) (i : Nat) (v : FrameData) :
    (h.updBuf i v).buf i = v := by simp [FrameHeap.updBuf]

lemma FrameHeap.updBuf_buf_other (h : FrameHeap) (i j : Nat) (v : FrameData)
    (hij : j ≠ i) : (h.updBuf i v).buf j = h.buf j := by
  simp [FrameHeap.updBuf, hij]

lemma FrameHeap.incRef_releases (h : FrameHeap) (o : Option Nat) :
    (h.incRef o).releases = h.releases := by
  cases o <;> rfl

lemma FrameHeap.incRef_refcount (h : FrameHeap) (d : Nat) :
    ((h.incRef (some d)).buf d).refcount = (h.buf d).refcount + 1 := by
  simp [FrameHeap.incRef, FrameHeap.updBuf_buf_self]

/-! ### Lemmas about iterated copies and destroys -/

lemma Frame.copies_releases (f : Frame) :
    ∀ (n : Nat) (h : FrameHeap), (Frame.copies f n h).releases = h.releases := by
  intro n
  induction n with
  | zero => intro h; rfl
  | succ n ih =>
    intro h
    simp only [Frame.copies, ih, Frame.copyCtor, FrameHeap.incRef_releases]

lemma Frame.copies_refcount (f : Frame) (d : Nat) (hf : f.m_data = some d) :
    ∀ (n : Nat) (h : FrameHeap),
      ((Frame.copies f n h).buf d).refcount = (h.buf d).refcount + n := by
  intro n
  induction n with
  | zero => intro h; simp [Frame.copies]
  | succ n ih =>
    intro h
    simp only [Frame.copies, ih, Frame.copyCtor, hf]
    rw [FrameHeap.incRef_refcount]
    push_cast
    ring

lemma Frame.destroys_aboveZero (f : Frame) (d : Nat) (hf : f.m_data = some d) :
    ∀ (k : Nat) (h : FrameHeap), (k : Int) < (h.buf d).refcount →
      ((Frame.destroys f k h).buf d).refcount = (h.buf d).refcount - k ∧
      (Frame.destroys f k h).releases = h.releases := by
  intro k
  induction k with
  | zero => intro h _; simp [Frame.destroys]
  | succ k ih =>
    intro h hk
    have hc : (h.buf d).refcount - 1 ≠ 0 := by
      have : (k : Int) + 1 < (h.buf d).refcount := by push_cast at hk ⊢; omega
      omega
    have hstep : Frame.dtor f h =
        h.updBuf d { h.buf d with refcount := (h.buf d).refcount - 1 } := by
      simp only [Frame.dtor, Frame.decRef, hf, if_neg hc]
    have hrc1 : ((Frame.dtor f h).buf d).refcount = (h.buf d).refcount - 1 := by
      rw [hstep, FrameHeap.updBuf_buf_self]
    have hrel1 : (Frame.dtor f h).releases = h.releases := by
      rw [hstep, FrameHeap.updBuf_releases]
    have hklt : (k : Int) < ((Frame.dtor f h).buf d).refcount := by
      rw [hrc1]; push_cast at hk ⊢; omega
    have := ih (Frame.dtor f h) hklt
    refine ⟨?_, ?_⟩
    · rw [show Frame.destroys f (k + 1) h = Frame.destroys f k (Frame.dtor f h) from rfl,
        this.1, hrc1]
      push_cast
      ring
    · rw [show Frame.destroys f (k + 1) h = Frame.destroys f k (Frame.dtor f h) from rfl,
        this.2, hrel1]

lemma Frame.destroys_succ_back (f : Frame) :
    ∀ (n : Nat) (h : FrameHeap),
      Frame.destroys f (n + 1) h = Frame.dtor f (Frame.destroys f n h) := by
  intro n
  induction n with
  | zero => intro h; rfl
  | succ n ih =>
    intro h
    calc Frame.destroys f (n + 1 + 1) h
        = Frame.destroys f (n + 1) (Frame.dtor f h) := rfl
      _ = Frame.dtor f (Frame.destroys f n (Frame.dtor f h)) := ih _
      _ = Frame.dtor f (Frame.destroys f (n + 1) h) := rfl

/-- C1: For every published Frame and every N ≥ 0, a sequence of N copy
operations followed by N+1 destroy operations causes the reclamation
notification (`ReleaseFrame`) to be invoked exactly once, upon the last
destroy (when the reference count transitions to zero), and never before
it.  The release log after any k ≤ N destroys is unchanged, and after the
(N+1)-st destroy it has gained exactly the one entry for the published
buffer. -/
theorem frame_refcount_release_exactly_once
    (N src d : Nat) (h0 : FrameHeap)
    (hrc : (h0.buf d).refcount = 0) :
    (∀ k, k ≤ N →
      (Frame.destroys (Frame.publish src d h0).1 k
        (Frame.copies (Frame.publish src d h0).1 N
          (Frame.publish src d h0).2)).releases = h0.releases) ∧
    (Frame.destroys (Frame.publish src d h0).1 (N + 1)
      (Frame.copies (Frame.publish src d h0).1 N
        (Frame.publish src d h0).2)).releases = h0.releases ++ [d] := by
  have hf : (Frame.publish src d h0).1.m_data = some d := rfl
  have h1rc : ((Frame.publish src d h0).2.buf d).refcount = 1 := by
    show ((h0.incRef (some d)).buf d).refcount = 1
    rw [FrameHeap.incRef_refcount, hrc]
    norm_num
  have h1rel : (Frame.publish src d h0).2.releases = h0.releases := by
    show (h0.incRef (some d)).releases = h0.releases
    exact FrameHeap.incRef_releases h0 (some d)
  set f := (Frame.publish src d h0).1 with hfdef
  set h1 := (Frame.publish src d h0).2 with h1def
  have hcrc : ((Frame.copies f N h1).buf d).refcount = 1 + N := by
    rw [Frame.copies_refcount f d hf N h1, h1rc]
  have hcrel : (Frame.copies f N h1).releases = h0.releases := by
    rw [Frame.copies_releases f N h1, h1rel]
  constructor
  · intro k hk
    have hklt : (k : Int) < ((Frame.copies f N h1).buf d).refcount := by
      rw [hcrc]; omega
    rw [(Frame.destroys_aboveZero f d hf k _ hklt).2, hcrel]
  · have hNlt : (N : Int) < ((Frame.copies f N h1).buf d).refcount := by
      rw [hcrc]; omega
    have hN := Frame.destroys_aboveZero f d hf N (Frame.copies f N h1) hNlt
    have hrc1 : ((Frame.destroys f N (Frame.copies f N h1)).buf d).refcount = 1 := by
      rw [hN.1, hcrc]; ring
    rw [Frame.destroys_succ_back]
    show (Frame.decRef f _).releases = h0.releases ++ [d]
    simp only [Frame.decRef, hf, hrc1]
    norm_num
    rw [FrameHeap.updBuf_releases, hN.2, hcrel]

/-- Witness for C1 at N = 2, source 7, buffer 5: no release after 1 ≤ 2
destroys, exactly one release of buffer 5 after the 3rd destroy. -/
theorem frame_refcount_release_exactly_once_witness :
    (Frame.destroys (Frame.publish 7 5 testHeap).1 1
      (Frame.copies (Frame.publish 7 5 testHeap).1 2
        (Frame.publish 7 5 testHeap).2)).releases = testHeap.releases ∧
    (Frame.destroys (Frame.publish 7 5 testHeap).1 3
      (Frame.copies (Frame.publish 7 5 testHeap).1 2
        (Frame.publish 7 5 testHeap).2)).releases = testHeap.releases ++ [5] :=
  ⟨(frame_refcount_release_exactly_once 2 7 5 testHeap rfl).1 1 (by decide),
   (frame_refcount_release_exactly_once 2 7 5 testHeap rfl).2⟩

/-! ### Trace-model lemma -/

lemma rcRun_spec :
    ∀ (t : List FrameOp) (rc : Int) (r : Nat), 0 < rc → wfTrace rc t = true →
      rcRun ⟨rc, r⟩ t =
        ⟨liveAfter rc t, r + (if liveAfter rc t = 0 then 1 else 0)⟩ := by
  intro t
  induction t with
  | nil =>
    intro rc r hrc _
    have hnz : ¬ rc = 0 := by omega
    simp [rcRun, liveAfter, hnz]
  | cons op rest ih =>
    intro rc r hrc hwf
    have hwf' : wfTrace (rc + op.delta) rest = true := by
      simp only [wfTrace, Bool.and_eq_true] at hwf
      exact hwf.2
    cases op with
    | copyOp =>
      show rcRun (rcStep ⟨rc, r⟩ .copyOp) rest = _
      have hstep : rcStep ⟨rc, r⟩ .copyOp = ⟨rc + 1, r⟩ := rfl
      rw [hstep]
      have h1 : (0 : Int) < rc + 1 := by omega
      have := ih (rc + 1) r h1 (by simpa [FrameOp.delta] using hwf')
      simpa [liveAfter, FrameOp.delta] using this
    | destroyOp =>
      by_cases hc : rc - 1 = 0
      · have hrest : rest = [] := by
          cases rest with
          | nil => rfl
          | cons op2 r2 =>
            exfalso
            have hz : rc + FrameOp.delta .destroyOp = 0 := by
              simp [FrameOp.delta]; omega
            rw [hz] at hwf'
            simp [wfTrace] at hwf'
        subst hrest
        show rcRun (rcStep ⟨rc, r⟩ .destroyOp) [] = _
        have hstep : rcStep ⟨rc, r⟩ .destroyOp = ⟨0, r + 1⟩ := by
          simp [rcStep, hc]
        rw [hstep]
        have hlive : liveAfter rc [FrameOp.destroyOp] = 0 := by
          simp [liveAfter, FrameOp.delta]; omega
        simp [rcRun, hlive]
      · have hcpos : (0 : Int) < rc - 1 := by
          have hd : rc + FrameOp.delta .destroyOp = rc - 1 := by
            simp [FrameOp.delta]; ring
          rw [hd] at hwf'
          cases rest with
          | nil => omega
          | cons op2 r2 =>
            simp only [wfTrace, Bool.and_eq_true, decide_eq_true_eq] at hwf'
            exact hwf'.1
        show rcRun (rcStep ⟨rc, r⟩ .destroyOp) rest = _
        have hstep : rcStep ⟨rc, r⟩ .destroyOp = ⟨rc - 1, r⟩ := by
          simp [rcStep, hc]
        rw [hstep]
        have := ih (rc - 1) r hcpos (by simpa [FrameOp.delta, sub_eq_add_neg] using hwf')
        simpa [liveAfter, FrameOp.delta, sub_eq_add_neg] using this

/-! ### Claim theorems -/

/-- C2: every accessor of a default-constructed (null) `Frame` returns
the empty sentinel without dereferencing any pointer: `size()` is 0,
`data()` is null, `time()` is the epoch time point, and boolean
conversion is false — uniformly in the heap, so no stored `Data` record
is ever read. -/
theorem frame_null_accessors (h : FrameHeap) :
    Frame.size Frame.nullFrame h = 0 ∧
    Frame.data Frame.nullFrame h = none ∧
    Frame.time Frame.nullFrame h = 0 ∧
    Frame.toBool Frame.nullFrame = false :=
  ⟨rfl, rfl, rfl, rfl⟩

/-- C3 counterexample: move-assignment is not free of reference-count
traffic.  With buffers 0 and 1 each at refcount 1, `a = std::move(b)`
(where `a` holds buffer 0 and `b` holds buffer 1) decrements buffer 0's
count to 0 and invokes the backend reclamation (`ReleaseFrame`) for it:
the release log and buffer 0's refcount both change, refuting "the
shared reference count is not modified, and no backend call is made by
the move" as stated. -/
theorem frame_move_assign_calls_backend_cx :
    ¬ ((Frame.moveAssign ⟨some 0, some 0⟩ ⟨some 0, some 1⟩ cxHeap).2.releases =
         cxHeap.releases ∧
       ((Frame.moveAssign ⟨some 0, some 0⟩ ⟨some 0, some 1⟩ cxHeap).2.buf 0).refcount =
         (cxHeap.buf 0).refcount) := by
  decide

/-- C3 amended: after move-constructing from a Frame or a VideoSource
wrapper the moved-from object is in the default/empty state (null data
pointer, identifier 0), no reference count is modified and no backend
call is made.  After move-assigning, the moved-from object is likewise
default/empty and the moved resource is untouched, but the assignment
target's previous reference is released (the sole heap/backend effect,
absent when the target was null/empty). -/
theorem move_leaves_source_null
    (f a c : Frame) (h : FrameHeap) (b : CSBackend) (s t : VideoSource) :
    Frame.moveCtor f h = ((f, Frame.nullFrame), h) ∧
    Frame.moveAssign a c h = ((c, Frame.nullFrame), Frame.dtor a h) ∧
    (a.m_data = none → Frame.moveAssign a c h = ((c, Frame.nullFrame), h)) ∧
    VideoSource.moveCtor s = ((s, VideoSource.nullSource), 0) ∧
    VideoSource.moveAssign b t s =
      ((s, VideoSource.nullSource), VideoSource.dtor b t) ∧
    (t.m_handle = 0 → (VideoSource.moveAssign b t s).2.2 = 0) := by
  refine ⟨rfl, rfl, ?_, rfl, rfl, ?_⟩
  · intro ha
    show ((c, Frame.nullFrame), Frame.dtor a h) = ((c, Frame.nullFrame), h)
    simp [Frame.dtor, Frame.decRef, ha]
  · intro ht
    show (VideoSource.dtor b t).2 = 0
    simp [VideoSource.dtor, ht]

/-- Witness for the amended C3: move-assigning onto a null Frame leaves
the heap untouched, and move-assigning onto an empty VideoSource makes
no backend release call. -/
theorem move_leaves_source_null_witness :
    Frame.moveAssign ⟨none, none⟩ ⟨some 0, some 1⟩ testHeap =
      ((⟨some 0, some 1⟩, Frame.nullFrame), testHeap) ∧
    (VideoSource.moveAssign testBackend ⟨0, 0⟩ ⟨4, 0⟩).2.2 = 0 :=
  ⟨(move_leaves_source_null ⟨none, none⟩ ⟨none, none⟩ ⟨some 0, some 1⟩
      testHeap testBackend ⟨4, 0⟩ ⟨0, 0⟩).2.2.1 rfl,
   (move_leaves_source_null ⟨none, none⟩ ⟨none, none⟩ ⟨some 0, some 1⟩
      testHeap testBackend ⟨4, 0⟩ ⟨0, 0⟩).2.2.2.2.2 rfl⟩

/-- C4: copy-constructing a non-null Frame copies exactly the two handle
pointers (the copy equals the original handle value), increments the
shared buffer's reference count by exactly one, leaves every other buffer
untouched, never copies or alters any pixel bytes or timestamp, and
triggers no release; copy-constructing a null Frame yields a null Frame
and leaves the heap entirely unchanged. -/
theorem frame_copy_semantics (f : Frame) (h : FrameHeap) :
    (∀ d, f.m_data = some d →
      (Frame.copyCtor f h).1 = f ∧
      ((Frame.copyCtor f h).2.buf d).refcount = (h.buf d).refcount + 1 ∧
      (∀ j, j ≠ d → (Frame.copyCtor f h).2.buf j = h.buf j) ∧
      (∀ j, ((Frame.copyCtor f h).2.buf j).image = (h.buf j).image) ∧
      (∀ j, ((Frame.copyCtor f h).2.buf j).timestamp = (h.buf j).timestamp) ∧
      (Frame.copyCtor f h).2.releases = h.releases) ∧
    (f.m_data = none → Frame.copyCtor f h = (⟨f.m_source, none⟩, h)) := by
  constructor
  · intro d hd
    refine ⟨rfl, ?_, ?_, ?_, ?_, ?_⟩
    · simp [Frame.copyCtor, hd, FrameHeap.incRef_refcount]
    · intro j hj
      simp [Frame.copyCtor, hd, FrameHeap.incRef,
        FrameHeap.updBuf_buf_other _ _ _ _ hj]
    · intro j
      by_cases hj : j = d
      · subst hj
        simp [Frame.copyCtor, hd, FrameHeap.incRef, FrameHeap.updBuf_buf_self]
      · simp [Frame.copyCtor, hd, FrameHeap.incRef,
          FrameHeap.updBuf_buf_other _ _ _ _ hj]
    · intro j
      by_cases hj : j = d
      · subst hj
        simp [Frame.copyCtor, hd, FrameHeap.incRef, FrameHeap.updBuf_buf_self]
      · simp [Frame.copyCtor, hd, FrameHeap.incRef,
          FrameHeap.updBuf_buf_other _ _ _ _ hj]
    · simp [Frame.copyCtor, FrameHeap.incRef_releases]
  · intro hn
    simp [Frame.copyCtor, hn, FrameHeap.incRef]

/-- Witness for C4 at buffer 3 of the all-zero test heap, and at a null
frame. -/
theorem frame_copy_semantics_witness :
    ((Frame.copyCtor ⟨some 0, some 3⟩ testHeap).2.buf 3).refcount =
      (testHeap.buf 3).refcount + 1 ∧
    Frame.copyCtor ⟨some 0, none⟩ testHeap = (⟨some 0, none⟩, testHeap) :=
  ⟨((frame_copy_semantics ⟨some 0, some 3⟩ testHeap).1 3 rfl).2.1,
   (frame_copy_semantics ⟨some 0, none⟩ testHeap).2 rfl⟩

/-- C9: under concurrent copies and destroys of Frame handles sharing one
buffer — embedded as an arbitrary linearization of the individual atomic
increment/decrement operations, which is how `std::atomic_int`
serializes them — starting from the single published reference, the
reclamation callback fires exactly once iff the trace destroys every
live handle (forced by well-formedness to happen at the final
operation, on the 1→0 transition), the refcount always equals the number
of live handles, and the callback can never fire twice: no two
decrements both observe "I am the last". -/
theorem frame_release_single_winner (t : List FrameOp)
    (hwf : wfTrace 1 t = true) :
    (rcRun ⟨1, 0⟩ t).releases = (if liveAfter 1 t = 0 then 1 else 0) ∧
    (rcRun ⟨1, 0⟩ t).refcount = liveAfter 1 t ∧
    (rcRun ⟨1, 0⟩ t).releases ≤ 1 := by
  have h := rcRun_spec t 1 0 (by norm_num) hwf
  rw [h]
  refine ⟨by simp, by simp, ?_⟩
  by_cases hz : liveAfter 1 t = 0 <;> simp [hz]

/-- Witness for C9 on the trace copy, copy, destroy, destroy, destroy:
exactly one release. -/
theorem frame_release_single_winner_witness :
    (rcRun ⟨1, 0⟩ ctrace).releases = 1 :=
  ((frame_release_single_winner ctrace (by decide)).1).trans (by decide)

/-- C5: every accessor method of every Resource Handle wrapper
(VideoProperty, VideoSource/CvSource, VideoSink/CvSink) first resets the
stored status code to 0 and then delegates to the backend: the status
stored after any call equals the status the backend reports for that one
call starting from a fresh 0, and is independent of the previously
stored status (the prior `m_status` appears nowhere on the right-hand
sides).  The static `USBCamera::EnumerateUSBCameras` has no stored
status; it delegates with a fresh zero function-local. -/
theorem accessors_reset_status_then_delegate :
    (∀ b hh st ty, (VideoProperty.GetName b ⟨hh, st, ty⟩).2.m_status =
      (b.getPropertyName hh 0).2) ∧
    (∀ b hh st ty, (VideoProperty.GetBoolean b ⟨hh, st, ty⟩).2.m_status =
      (b.getBooleanProperty hh 0).2) ∧
    (∀ b hh st ty v, (VideoProperty.SetBoolean b ⟨hh, st, ty⟩ v).m_status =
      b.setBooleanProperty hh v 0) ∧
    (∀ b hh st ty, (VideoProperty.GetDouble b ⟨hh, st, ty⟩).2.m_status =
      (b.getDoubleProperty hh 0).2) ∧
    (∀ b hh st ty v, (VideoProperty.SetDouble b ⟨hh, st, ty⟩ v).m_status =
      b.setDoubleProperty hh v 0) ∧
    (∀ b hh st ty, (VideoProperty.GetMin b ⟨hh, st, ty⟩).2.m_status =
      (b.getPropertyMin hh 0).2) ∧
    (∀ b hh st ty, (VideoProperty.GetMax b ⟨hh, st, ty⟩).2.m_status =
      (b.getPropertyMax hh 0).2) ∧
    (∀ b hh st ty, (VideoProperty.GetStep b ⟨hh, st, ty⟩).2.m_status =
      (b.getPropertyStep hh 0).2) ∧
    (∀ b hh st ty, (VideoProperty.GetDefault b ⟨hh, st, ty⟩).2.m_status =
      (b.getPropertyDefault hh 0).2) ∧
    (∀ b hh st ty, (VideoProperty.GetString b ⟨hh, st, ty⟩).2.m_status =
      (b.getStringProperty hh 0).2) ∧
    (∀ b hh st ty, (VideoProperty.GetStringBuf b ⟨hh, st, ty⟩).2.m_status =
      (b.getStringPropertyBuf hh 0).2) ∧
    (∀ b hh st ty v, (VideoProperty.SetString b ⟨hh, st, ty⟩ v).m_status =
      b.setStringProperty hh v 0) ∧
    (∀ b hh st ty, (VideoProperty.GetEnum b ⟨hh, st, ty⟩).2.m_status =
      (b.getEnumProperty hh 0).2) ∧
    (∀ b hh st ty v, (VideoProperty.SetEnum b ⟨hh, st, ty⟩ v).m_status =
      b.setEnumProperty hh v 0) ∧
    (∀ b hh st ty, (VideoProperty.GetChoices b ⟨hh, st, ty⟩).2.m_status =
      (b.getEnumPropertyChoices hh 0).2) ∧
    (∀ b hh st, (VideoSource.GetName b ⟨hh, st⟩).2.m_status =
      (b.getSourceName hh 0).2) ∧
    (∀ b hh st, (VideoSource.GetDescription b ⟨hh, st⟩).2.m_status =
      (b.getSourceDescription hh 0).2) ∧
    (∀ b hh st, (VideoSource.GetLastFrameTime b ⟨hh, st⟩).2.m_status =
      (b.getSourceLastFrameTime hh 0).2) ∧
    (∀ b hh st, (VideoSource.IsConnected b ⟨hh, st⟩).2.m_status =
      (b.isSourceConnected hh 0).2) ∧
    (∀ b hh st name, (VideoSource.GetProperty b ⟨hh, st⟩ name).2.m_status =
      (b.getSourceProperty hh name 0).2) ∧
    (∀ b hh st im, (CvSource.PutFrame b ⟨hh, st⟩ im).m_status =
      b.putSourceFrame hh im 0) ∧
    (∀ b hh st msg, (CvSource.NotifyError b ⟨hh, st⟩ msg).m_status =
      b.notifySourceError hh msg 0) ∧
    (∀ b hh st c, (CvSource.SetConnected b ⟨hh, st⟩ c).m_status =
      b.setSourceConnected hh c 0) ∧
    (∀ b hh st name tyc,
      (CvSource.CreateProperty b ⟨hh, st⟩ name tyc).2.m_status =
      (b.createSourceProperty hh name tyc 0).2) ∧
    (∀ b hh st name tyc cb,
      (CvSource.CreatePropertyCallback b ⟨hh, st⟩ name tyc cb).2.m_status =
      (b.createSourcePropertyCallback hh name tyc cb 0).2) ∧
    (∀ b hh st p, (CvSource.RemovePropertyHandle b ⟨hh, st⟩ p).m_status =
      b.removeSourcePropertyHandle hh p.m_handle 0) ∧
    (∀ b hh st name, (CvSource.RemovePropertyName b ⟨hh, st⟩ name).m_status =
      b.removeSourcePropertyName hh name 0) ∧
    (∀ b hh st, (VideoSink.GetName b ⟨hh, st⟩).2.m_status =
      (b.getSinkName hh 0).2) ∧
    (∀ b hh st, (VideoSink.GetDescription b ⟨hh, st⟩).2.m_status =
      (b.getSinkDescription hh 0).2) ∧
    (∀ b hh st src, (VideoSink.SetSource b ⟨hh, st⟩ src).m_status =
      (if src.m_handle = 0 then b.setSinkSource hh 0 0
       else b.setSinkSource hh src.m_handle 0)) ∧
    (∀ b hh st, (VideoSink.GetSource b ⟨hh, st⟩).2.m_status =
      (b.getSinkSource hh 0).2) ∧
    (∀ b hh st name,
      (VideoSink.GetSourceProperty b ⟨hh, st⟩ name).2.m_status =
      (b.getSinkSourceProperty hh name 0).2) ∧
    (∀ b hh st im, (CvSink.GrabFrame b ⟨hh, st⟩ im).2.m_status =
      (b.grabSinkFrame hh im 0).2) ∧
    (∀ b hh st, (CvSink.GetError b ⟨hh, st⟩).2.m_status =
      (b.getSinkError hh 0).2) ∧
    (∀ b hh st e, (CvSink.SetEnabled b ⟨hh, st⟩ e).m_status =
      b.setSinkEnabled hh e 0) :=
  ⟨fun _ _ _ _ => rfl, fun _ _ _ _ => rfl, fun _ _ _ _ _ => rfl,
   fun _ _ _ _ => rfl, fun _ _ _ _ _ => rfl, fun _ _ _ _ => rfl,
   fun _ _ _ _ => rfl, fun _ _ _ _ => rfl, fun _ _ _ _ => rfl,
   fun _ _ _ _ => rfl, fun _ _ _ _ => rfl, fun _ _ _ _ _ => rfl,
   fun _ _ _ _ => rfl, fun _ _ _ _ _ => rfl, fun _ _ _ _ => rfl,
   fun _ _ _ => rfl, fun _ _ _ => rfl, fun _ _ _ => rfl,
   fun _ _ _ => rfl, fun _ _ _ _ => rfl, fun _ _ _ _ => rfl,
   fun _ _ _ _ => rfl, fun _ _ _ _ => rfl, fun _ _ _ _ _ => rfl,
   fun _ _ _ _ _ _ => rfl, fun _ _ _ _ => rfl, fun _ _ _ _ => rfl,
   fun _ _ _ => rfl, fun _ _ _ => rfl,
   fun b hh st src => by
     by_cases hs : src.m_handle = 0 <;> simp [VideoSink.SetSource, hs],
   fun _ _ _ => rfl, fun _ _ _ _ => rfl, fun _ _ _ _ => rfl,
   fun _ _ _ => rfl, fun _ _ _ _ => rfl⟩

/-- C6: copy-constructing a VideoSource or VideoSink requests a backend
add-reference (`CopySource`/`CopySink`) if and only if the copied
identifier is non-zero.  Copying identifier 0 yields identifier 0 with
zero backend calls (hence no backend-side reference count can change);
copying a non-zero identifier makes exactly one copy call and adopts the
handle and status the backend returns. -/
theorem wrapper_copy_backend_call_iff (b : CSBackend) (s : VideoSource)
    (k : VideoSink) :
    (s.m_handle = 0 → VideoSource.copyCtor b s = (⟨0, 0⟩, 0)) ∧
    (s.m_handle ≠ 0 →
      (VideoSource.copyCtor b s).2 = 1 ∧
      (VideoSource.copyCtor b s).1 =
        ⟨(b.copySource s.m_handle 0).1, (b.copySource s.m_handle 0).2⟩) ∧
    (k.m_handle = 0 → VideoSink.copyCtor b k = (⟨0, 0⟩, 0)) ∧
    (k.m_handle ≠ 0 →
      (VideoSink.copyCtor b k).2 = 1 ∧
      (VideoSink.copyCtor b k).1 =
        ⟨(b.copySink k.m_handle 0).1, (b.copySink k.m_handle 0).2⟩) := by
  refine ⟨fun h0 => ?_, fun hn => ?_, fun h0 => ?_, fun hn => ?_⟩ <;>
    simp [VideoSource.copyCtor, VideoSink.copyCtor, *]

/-- Witness for C6: copying an empty VideoSource makes no backend call;
copying handle 5 makes exactly one. -/
theorem wrapper_copy_backend_call_iff_witness :
    VideoSource.copyCtor testBackend ⟨0, 3⟩ = (⟨0, 0⟩, 0) ∧
    (VideoSource.copyCtor testBackend ⟨5, 3⟩).2 = 1 :=
  ⟨(wrapper_copy_backend_call_iff testBackend ⟨0, 3⟩ ⟨0, 0⟩).1 rfl,
   ((wrapper_copy_backend_call_iff testBackend ⟨5, 3⟩ ⟨0, 0⟩).2.1
     (by decide)).1⟩

/-- C7: destroying a VideoSource, VideoSink, SourceListener or
SinkListener wrapper makes exactly one backend release call iff its
identifier is non-zero, and none if the identifier is 0.  The status the
backend reports is recorded through the status out-parameter channel
(`m_status` for sources/sinks, a function-local for listeners); the
destructor is a total function, so destruction never fails observably
and never throws. -/
theorem wrapper_dtor_release_iff (b : CSBackend) (s : VideoSource)
    (k : VideoSink) (l : SourceListener) (m : SinkListener) :
    (s.m_handle = 0 → VideoSource.dtor b s = (0, 0)) ∧
    (s.m_handle ≠ 0 →
      VideoSource.dtor b s = (b.releaseSource s.m_handle 0, 1)) ∧
    (k.m_handle = 0 → VideoSink.dtor b k = (0, 0)) ∧
    (k.m_handle ≠ 0 →
      VideoSink.dtor b k = (b.releaseSink k.m_handle 0, 1)) ∧
    (l.m_handle = 0 → SourceListener.dtor b l = (0, 0)) ∧
    (l.m_handle ≠ 0 →
      SourceListener.dtor b l = (b.removeSourceListener l.m_handle 0, 1)) ∧
    (m.m_handle = 0 → SinkListener.dtor b m = (0, 0)) ∧
    (m.m_handle ≠ 0 →
      SinkListener.dtor b m = (b.removeSinkListener m.m_handle 0, 1)) := by
  refine ⟨fun h0 => ?_, fun hn => ?_, fun h0 => ?_, fun hn => ?_,
    fun h0 => ?_, fun hn => ?_, fun h0 => ?_, fun hn => ?_⟩ <;>
    simp [VideoSource.dtor, VideoSink.dtor, SourceListener.dtor,
      SinkListener.dtor, *]

/-- Witness for C7: destroying an empty VideoSource makes no release
call; destroying handle 5 makes exactly one. -/
theorem wrapper_dtor_release_iff_witness :
    VideoSource.dtor testBackend ⟨0, 3⟩ = (0, 0) ∧
    VideoSource.dtor testBackend ⟨5, 3⟩ = (testBackend.releaseSource 5 0, 1) :=
  ⟨(wrapper_dtor_release_iff testBackend ⟨0, 3⟩ ⟨0, 0⟩ ⟨0⟩ ⟨0⟩).1 rfl,
   (wrapper_dtor_release_iff testBackend ⟨5, 3⟩ ⟨0, 0⟩ ⟨0⟩ ⟨0⟩).2.1
     (by decide)⟩

/-- C8 counterexample: for the Listener kinds the nonzero status of a
failed construction is NOT inspectable afterwards — the constructor
writes it into a function-local `CS_Status` that goes out of scope, and
the object stores only the handle.  Two backends whose listener
registration fails with different nonzero codes (5 and 7) yield
identical `SourceListener` objects, so no observation of the constructed
object can recover the status; the object carries only the empty
handle 0. -/
theorem listener_ctor_discards_status_cx :
    SourceListener.ctor failBackend 1 3 = SourceListener.ctor failBackendB 1 3 ∧
    SourceListener.ctor failBackend 1 3 = ⟨0⟩ := by
  decide

/-- C8 amended: a failed construction (backend returns handle 0 with a
nonzero status) is never a crash or undefined state and always yields
the empty sentinel handle 0.  For Source and Sink kinds the nonzero
status is stored in `m_status` and is inspectable afterwards; a failed
Property lookup stores the nonzero status on the owning source and
yields the null property (handle 0, type `kNone`).  For Listener kinds
the status is written to a discarded function-local and is not
inspectable from the constructed object. -/
theorem failed_construction_zero_handle (b : CSBackend)
    (name : String) (dev : Int) (st : Int) (cb : Nat) (mask : Int)
    (s : VideoSource) :
    (b.createUSBSourceDev name dev 0 = (0, st) → st ≠ 0 →
      USBCamera.ctorDev b name dev = ⟨0, st⟩) ∧
    (b.createCvSink name 0 = (0, st) → st ≠ 0 →
      CvSink.ctor b name = ⟨0, st⟩) ∧
    (b.getSourceProperty s.m_handle name 0 = (0, st) → st ≠ 0 →
      (VideoSource.GetProperty b s name).1 = ⟨0, 0, PropertyKind.kNone⟩ ∧
      (VideoSource.GetProperty b s name).2.m_status = st) ∧
    (b.addSourceListener cb mask 0 = (0, st) →
      SourceListener.ctor b cb mask = ⟨0⟩) ∧
    (b.addSinkListener cb mask 0 = (0, st) →
      SinkListener.ctor b cb mask = ⟨0⟩) := by
  refine ⟨fun he _ => ?_, fun he _ => ?_, fun he _ => ⟨?_, ?_⟩,
    fun he => ?_, fun he => ?_⟩ <;>
    simp [USBCamera.ctorDev, CvSink.ctor, VideoSource.GetProperty,
      VideoProperty.ctorOfHandle, SourceListener.ctor, SinkListener.ctor, he]

/-- Witness for the amended C8 with `failBackend`: failed USB camera
construction stores handle 0 with inspectable status 9; failed listener
registration (status 5 at the backend) yields the bare handle 0. -/
theorem failed_construction_zero_handle_witness :
    USBCamera.ctorDev failBackend "cam" 0 = ⟨0, 9⟩ ∧
    SourceListener.ctor failBackend 1 3 = ⟨0⟩ :=
  ⟨(failed_construction_zero_handle failBackend "cam" 0 9 1 3 ⟨2, 0⟩).1
      rfl (by decide),
   (failed_construction_zero_handle failBackend "cam" 0 5 1 3 ⟨2, 0⟩).2.2.2.1
      rfl⟩

/-- C10: constructing a VideoProperty from handle 0 sets its type to
`kNone`, leaves status 0, and makes no backend call at all (the result is
the same for every backend); for a non-zero handle exactly one
`GetPropertyType` query is issued and its answer is cast to the cached
type. -/
theorem property_null_handle_type_none (b : CSBackend) :
    VideoProperty.ctorOfHandle b 0 = (⟨0, 0, PropertyKind.kNone⟩, 0) ∧
    (∀ hh, hh ≠ 0 →
      VideoProperty.ctorOfHandle b hh =
        (⟨hh, (b.getPropertyType hh 0).2,
          PropertyKind.ofInt (b.getPropertyType hh 0).1⟩, 1)) := by
  refine ⟨rfl, fun hh hnz => ?_⟩
  simp [VideoProperty.ctorOfHandle, hnz]

/-- Witness for C10: with the trivial backend, handle 5 issues the one
type query (whose answer 0 casts to `kNone`). -/
theorem property_null_handle_type_none_witness :
    VideoProperty.ctorOfHandle testBackend 5 = (⟨5, 0, PropertyKind.kNone⟩, 1) :=
  ((property_null_handle_type_none testBackend).2 5 (by decide)).trans
    (by decide)
